import Mathlib

/-!
Verification of the CRE document field-extraction engine
(`app/parsers/extractor.py`, `app/parsers/openai_extractor.py`,
`app/config.py`).

The development shallowly embeds the extraction pipeline:

* document text is `List Char`; Python `str.strip` / slicing are modelled
  on lists;
* JSON-shaped records (Python dicts/lists produced and consumed by the
  extractors) are the mutual inductive family `J`/`JItems`/`JFields`
  (mutual rather than `List`-nested so that every tree walker is
  structurally recursive and kernel-computable); Python dict insertion
  order is kept as field order, and dict item assignment is `setField`
  (replace-in-place, append when the key is absent);
* Python `re` is embedded for exactly the constructs the pattern catalog
  uses (case-insensitive literals, ordered alternation, greedy character
  classes `+`/`*`, `?`, one capture group) as a backtracking matcher that
  enumerates outcomes in Python's priority order; `finditer` scans
  left-to-right and resumes at each match's end;
* the OpenAI chat call is opaque: it is a parameter
  `modelCall : List Char → Except String J`; numbers are exact rationals
  and Python `round(x, 2)` is round-half-to-even on rationals.
-/

/-! ### Basic text utilities (Python `str.strip`, slicing, `in`) -/

/-- ASCII whitespace as recognised by Python `str.strip()` / `\s`. -/
def isSpace (c : Char) : Bool :=
  c == ' ' || c == '\t' || c == '\n' || c == '\r' || c == '\x0b' || c == '\x0c'

/-- Python `str.lstrip()`. -/
def lstrip (l : List Char) : List Char := l.dropWhile isSpace

/-- Python `str.rstrip()`. -/
def rstrip (l : List Char) : List Char := (l.reverse.dropWhile isSpace).reverse

/-- Python `str.strip()`. -/
def strip (l : List Char) : List Char := rstrip (lstrip l)

/-- Whether the second list begins with the first. -/
def leadsWith : List Char → List Char → Bool
  | [], _ => true
  | _ :: _, [] => false
  | c :: s, d :: l => c == d && leadsWith s l

/-- Python's `needle in hay` substring test on character lists. -/
def containsSeq (hay needle : List Char) : Bool :=
  match hay with
  | [] => leadsWith needle []
  | _ :: t => leadsWith needle hay || containsSeq t needle

/-- Python's `needle in hay` substring test on strings. -/
def containsSub (hay needle : String) : Bool := containsSeq hay.data needle.data

/-- Python slice `text[a:b]` (for `0 ≤ a ≤ b`): `drop a (take b text)`. -/
def sliceBetween (text : List Char) (a b : Nat) : List Char :=
  (text.take b).drop a

/-! ### JSON-shaped values (the Python dict/list records of the extractors) -/

mutual
/-- JSON-like values: the shape of every record the extractors build.
Objects keep Python dict insertion order.  The records in this code base
contain only nulls, strings, numbers, arrays and objects. -/
inductive J where
  | null
  | s (v : String)
  | n (v : ℚ)
  | arr (items : JItems)
  | obj (fields : JFields)

/-- The items of a JSON array. -/
inductive JItems where
  | nil
  | cons (head : J) (tail : JItems)

/-- The ordered key/value pairs of a JSON object (Python dict). -/
inductive JFields where
  | nil
  | cons (key : String) (val : J) (tail : JFields)
end

/-- Build a field list from a `List` literal. -/
def fieldsOf : List (String × J) → JFields
  | [] => JFields.nil
  | (k, v) :: t => JFields.cons k v (fieldsOf t)

/-- Build an item list from a `List` literal. -/
def itemsOf : List J → JItems
  | [] => JItems.nil
  | v :: t => JItems.cons v (itemsOf t)

/-- A JSON object from a `List` literal (Python dict display). -/
def jobj (l : List (String × J)) : J := J.obj (fieldsOf l)

/-- A JSON array from a `List` literal (Python list display). -/
def jarr (l : List J) : J := J.arr (itemsOf l)

/-- Is an item list empty? -/
def JItems.isEmpty : JItems → Bool
  | JItems.nil => true
  | _ => false

/-- Is a field list empty? -/
def JFields.isEmpty : JFields → Bool
  | JFields.nil => true
  | _ => false

/-- Python truthiness of a JSON value (`if item:`): `None`, `""`, `0`,
`[]` and `{}` are falsy. -/
def truthy : J → Bool
  | J.null => false
  | J.s v => !(v == "")
  | J.n v => !(v == 0)
  | J.arr items => !items.isEmpty
  | J.obj fields => !fields.isEmpty

/-- Is this JSON value `null`? -/
def isNullJ : J → Bool
  | J.null => true
  | _ => false

/-- First-match key lookup in an ordered field list (Python dict access). -/
def lookupField : JFields → String → Option J
  | JFields.nil, _ => none
  | JFields.cons k' v t, k => if k' = k then some v else lookupField t k

/-- Python `key in dict`. -/
def hasKey (fs : JFields) (k : String) : Bool := (lookupField fs k).isSome

/-- Python `obj[key]` on an object, `none` otherwise. -/
def getField : J → String → Option J
  | J.obj fs, k => lookupField fs k
  | _, _ => none

/-- Replace the value at `k` in place, appending when absent
(Python dict item assignment). -/
def setInList : JFields → String → J → JFields
  | JFields.nil, k, v => JFields.cons k v JFields.nil
  | JFields.cons k' v' t, k, v =>
    if k' = k then JFields.cons k v t else JFields.cons k' v' (setInList t k v)

/-- Python `obj[key] = v` (dict item assignment).  The source only ever
assigns into dicts; on a non-object we totalise to a fresh one-field
object. -/
def setField : J → String → J → J
  | J.obj fs, k, v => J.obj (setInList fs k v)
  | _, k, v => jobj [(k, v)]

/-- Observe a string-valued field (for decidable theorem statements). -/
def jStr : Option J → Option String
  | some (J.s v) => some v
  | _ => none

/-- Observe a number-valued field (for decidable theorem statements). -/
def jNum : Option J → Option ℚ
  | some (J.n v) => some v
  | _ => none

/-- Is the observed field present and `null`? -/
def jIsNull : Option J → Bool
  | some J.null => true
  | _ => false

/-- Access `j[f][a]` (e.g. a group's field, or a field's attribute). -/
def attrOf (j : J) (f a : String) : Option J :=
  match getField j f with
  | some x => getField x a
  | none => none

/-! ### Embedded regular expressions

The pattern catalog of `extractor.py` uses exactly: case-insensitive
literals, ordered non-capturing alternation `(?:A|B|…)`, greedy
one-or-more / zero-or-more character classes (`[\d,]+`, `\s*`, `[^\n]+`,
`\d{4}` as four single-character classes), greedy option (`\$?`, `\.?`,
`%?`) and a single capture group.  `mrun` enumerates the (suffix, capture)
outcomes in Python `re`'s backtracking priority order: alternation
alternatives left to right, quantifiers longest first. -/

inductive RE where
  | lit (s : List Char)
  | cls (p : Char → Bool)
  | starCls (p : Char → Bool)
  | plusCls (p : Char → Bool)
  | opt (r : RE)
  | cat (a b : RE)
  | alt (a b : RE)
  | group (r : RE)

/-- Case-insensitive literal match (Python `re.IGNORECASE`): on success
return the remaining suffix. -/
def matchLitCI : List Char → List Char → Option (List Char)
  | [], l => some l
  | _ :: _, [] => none
  | c :: s, d :: l => if c.toLower == d.toLower then matchLitCI s l else none

/-- Length of the maximal leading run satisfying `p`. -/
def countLeading (p : Char → Bool) : List Char → Nat
  | [] => 0
  | c :: t => if p c then countLeading p t + 1 else 0

/-- All (remaining suffix, group-1 capture) outcomes of matching `re` at
the head of `l`, in backtracking priority order. -/
def mrun : RE → List Char → List (List Char × Option (List Char))
  | RE.lit s, l =>
    match matchLitCI s l with
    | some rest => [(rest, none)]
    | none => []
  | RE.cls _, [] => []
  | RE.cls p, c :: t => if p c then [(t, none)] else []
  | RE.starCls p, l =>
    let k := countLeading p l
    (List.range (k + 1)).reverse.map (fun i => (l.drop i, none))
  | RE.plusCls p, l =>
    let k := countLeading p l
    (List.range k).reverse.map (fun i => (l.drop (i + 1), none))
  | RE.opt r, l => mrun r l ++ [(l, none)]
  | RE.cat a b, l =>
    (mrun a l).flatMap (fun p => (mrun b p.1).map (fun q => (q.1, p.2 <|> q.2)))
  | RE.alt a b, l => mrun a l ++ mrun b l
  | RE.group r, l =>
    (mrun r l).map (fun p => (p.1, some (l.take (l.length - p.1.length))))

/-- One regex match: absolute start/end offsets and the group-1 capture. -/
structure RMatch where
  ms : Nat
  me : Nat
  grp : Option (List Char)

/-- First match of `re` at or after offset `i` (the list argument is the
text's suffix from `i`), as Python `re.search` rooted at `i`. -/
def searchAux (re : RE) : List Char → Nat → Option RMatch
  | [], i =>
    match mrun re [] with
    | (_, g) :: _ => some ⟨i, i, g⟩
    | [] => none
  | c :: t, i =>
    match mrun re (c :: t) with
    | (rest, g) :: _ => some ⟨i, i + ((c :: t).length - rest.length), g⟩
    | [] => searchAux re t (i + 1)

/-- Scan loop of Python `re.finditer`: after a match `[ms, me)` resume at
`me`, or one past it for a zero-width match.  The fuel only bounds the
scan (each step advances the offset by at least one). -/
def finditerAux (re : RE) (text : List Char) : Nat → Nat → List RMatch
  | 0, _ => []
  | fuel + 1, i =>
    if text.length < i then []
    else
      match searchAux re (text.drop i) i with
      | none => []
      | some m => m :: finditerAux re text fuel (if m.ms < m.me then m.me else m.me + 1)

/-- Python `re.finditer(pattern, text, re.IGNORECASE | re.MULTILINE)` for
the embedded patterns (none of which use `^`/`$`, so `MULTILINE` is
inert). -/
def finditer (re : RE) (text : List Char) : List RMatch :=
  finditerAux re text (text.length + 2) 0

/-! ### Citation windows and the citation-aware pattern helpers
(`DataExtractor._find_pattern_with_citation`,
`DataExtractor._find_multiple_patterns_with_citations`) -/

/-- The citation snippet around a match `[ms, me)`:
`text[max(0, ms - 50) : min(len(text), me + 50)].strip()` (natural-number
subtraction is exactly the `max(0, ·)` clamp). -/
def source_window (text : List Char) (ms me : Nat) : List Char :=
  strip (sliceBetween text (ms - 50) (min text.length (me + 50)))

/-- The all-null FieldValue `{"value": None, "unit": None, "source_text": None}`. -/
def nullField : J :=
  jobj [("value", J.null), ("unit", J.null), ("source_text", J.null)]

/-- `DataExtractor._find_pattern_with_citation` (also reached through the
alias `_find_pattern_with_source`): take match number `index` of the
pattern, strip the group-1 capture, and record value plus citation window
only when the stripped capture is non-empty (`if value:`). -/
def find_pattern_with_citation (text : List Char) (re : RE) (index : Nat) : J :=
  match (finditer re text)[index]? with
  | some m =>
    match m.grp with
    | some g =>
      let value := strip g
      if value.isEmpty then nullField
      else
        jobj [("value", J.s (String.mk value)), ("unit", J.null),
              ("source_text", J.s (String.mk (source_window text m.ms m.me)))]
    | none => nullField
  | none => nullField

/-- Key choice of `_find_multiple_patterns_with_citations`: inspects the
lowercased Python pattern string. -/
def entryKey (pat : String) : String :=
  let p := pat.toLower
  if containsSub p "tenant" then "name"
  else if containsSub p "risk" then "risk"
  else if containsSub p "mitigation" || containsSub p "strategy" then "strategy"
  else if containsSub p "trend" then "trend"
  else "property"

/-- Loop body of `_find_multiple_patterns_with_citations`: append an entry
for each examined match whose stripped capture is non-empty. -/
def collectEntries (text : List Char) (key : String) : List RMatch → List J
  | [] => []
  | m :: ms =>
    match m.grp with
    | some g =>
      let value := strip g
      if value.isEmpty then collectEntries text key ms
      else
        jobj [(key, J.s (String.mk value)),
              ("source_text", J.s (String.mk (source_window text m.ms m.me)))]
          :: collectEntries text key ms
    | none => collectEntries text key ms

/-- `DataExtractor._find_multiple_patterns_with_citations` (also reached
through the alias `_find_multiple_patterns_with_sources`): iterate over
`matches[:limit]` only.  `pat` is the Python pattern string, used only to
choose the entry's label key. -/
def find_multiple_patterns_with_citations
    (text : List Char) (re : RE) (pat : String) (limit : Nat) : List J :=
  collectEntries text (entryKey pat) ((finditer re text).take limit)

/-! ### The pattern catalog (the regex literals of `extractor.py`),
as embedded `RE` values. -/

/-- `:` followed by `\s*`. -/
def reColonWs : RE := RE.cat (RE.lit ":".data) (RE.starCls isSpace)

/-- `([\d,]+\.?\d*)` — the money amount capture. -/
def reMoneyGroup : RE :=
  RE.group (RE.cat (RE.plusCls (fun c => c.isDigit || c == ','))
    (RE.cat (RE.opt (RE.cls (fun c => c == '.'))) (RE.starCls Char.isDigit)))

/-- `([\d.]+)` — the plain decimal capture. -/
def reDecimalGroup : RE := RE.group (RE.plusCls (fun c => c.isDigit || c == '.'))

/-- `([^\n]+)` — rest-of-line capture. -/
def reLineGroup : RE := RE.group (RE.plusCls (fun c => !(c == '\n')))

/-- `([\d,]+)` — digits-and-commas capture. -/
def reIntGroup : RE := RE.group (RE.plusCls (fun c => c.isDigit || c == ','))

/-- Ordered alternation of case-insensitive literals `(?:A|B|…)`. -/
def reAlts : List String → RE
  | [] => RE.lit []
  | [s] => RE.lit s.data
  | s :: rest => RE.alt (RE.lit s.data) (reAlts rest)

/-- `(?:…): \s* G` — label alternatives, colon, whitespace, then the
given capture body. -/
def labeled (alts : List String) (g : RE) : RE :=
  RE.cat (reAlts alts) (RE.cat reColonWs g)

/-- `(?:…):\s*\$?([\d,]+\.?\d*)` — labelled dollar amount. -/
def labeledMoney (alts : List String) : RE :=
  labeled alts (RE.cat (RE.opt (RE.cls (fun c => c == '$'))) reMoneyGroup)

/-- property_details patterns (`_extract_property_details_with_citations`). -/
def re_property_address : RE := labeled ["Address", "Location", "Property"] reLineGroup

def re_property_type : RE := labeled ["Property Type", "Asset Class"] reLineGroup

def re_square_footage : RE := labeled ["Square Feet", "SF", "Total Area"] reIntGroup

def re_acres : RE :=
  labeled ["Acres", "Acreage", "Land Area"]
    (RE.group (RE.plusCls (fun c => c.isDigit || c == ',' || c == '.')))

def re_land_square_feet : RE :=
  RE.cat
    (RE.alt (RE.lit "Land Square Feet".data)
      (RE.alt (RE.lit "Land SF".data)
        (RE.cat (RE.lit "Land Area".data)
          (RE.cat (RE.starCls isSpace) (RE.lit "(SF)".data)))))
    (RE.cat reColonWs reIntGroup)

def re_gross_building_area : RE := labeled ["Gross Building Area", "GBA"] reIntGroup

def re_net_rentable_area : RE := labeled ["Net Rentable Area", "NRA"] reIntGroup

def re_year_built : RE :=
  labeled ["Year Built", "Year Constructed"]
    (RE.group (RE.cat (RE.cls Char.isDigit) (RE.cat (RE.cls Char.isDigit)
      (RE.cat (RE.cls Char.isDigit) (RE.cls Char.isDigit)))))

def re_units : RE :=
  labeled ["Number of Units", "Total Units"] (RE.group (RE.plusCls Char.isDigit))

def re_occupancy_rate : RE :=
  labeled ["Occupancy Rate", "Occupancy"]
    (RE.group (RE.cat (RE.plusCls (fun c => c.isDigit || c == '.'))
      (RE.cls (fun c => c == '%'))))

/-- financial_metrics patterns (`_extract_financial_metrics_with_citations`). -/
def re_noi_annual : RE := labeledMoney ["Net Operating Income", "NOI"]

def re_stabilized_noi : RE :=
  labeledMoney ["Stabilized NOI", "Stabilized Net Operating Income"]

def re_cap_rate : RE :=
  labeled ["Cap Rate", "Capitalization Rate"]
    (RE.cat reDecimalGroup (RE.opt (RE.cls (fun c => c == '%'))))

def re_purchase_price : RE := labeledMoney ["Purchase Price", "Acquisition Price"]

def re_appraised_value : RE := labeledMoney ["Appraised Value", "Valuation"]

def re_annual_gross_income : RE := labeledMoney ["Gross Income", "Annual Revenue"]

def re_operating_expenses : RE := labeledMoney ["Operating Expenses", "OpEx"]

def re_debt_service : RE := labeledMoney ["Debt Service", "Annual Debt Service"]

def re_dscr : RE := labeled ["DSCR", "Debt Service Coverage Ratio"] reDecimalGroup

def re_irr : RE :=
  labeled ["IRR", "Internal Rate of Return"]
    (RE.cat reDecimalGroup (RE.opt (RE.cls (fun c => c == '%'))))

def re_project_cost : RE :=
  labeledMoney ["Total Project Cost", "Project Cost", "Total Cost"]

def re_expected_exit_valuation : RE :=
  labeledMoney ["Expected Exit Valuation", "Exit Valuation", "Terminal Value"]

/-- loan_details patterns (`_extract_loan_details_with_citations`). -/
def re_loan_amount : RE := labeledMoney ["Loan Amount", "Credit Facility"]

def re_interest_rate : RE :=
  labeled ["Interest Rate", "Rate"]
    (RE.cat reDecimalGroup (RE.opt (RE.cls (fun c => c == '%'))))

def re_loan_term_years : RE :=
  labeled ["Loan Term", "Amortization Period"]
    (RE.cat (RE.group (RE.plusCls Char.isDigit))
      (RE.cat (RE.starCls isSpace) (reAlts ["year", "month"])))

def re_loan_type : RE := labeled ["Loan Type", "Facility Type"] reLineGroup

def re_lender : RE := labeled ["Lender", "Bank", "Financial Institution"] reLineGroup

def re_maturity_date : RE := labeled ["Maturity Date", "Loan Maturity"] reLineGroup

def re_ltv : RE :=
  labeled ["LTV", "Loan to Value"]
    (RE.cat reDecimalGroup (RE.opt (RE.cls (fun c => c == '%'))))

/-- tenant_information / market_analysis / risk_assessment patterns. -/
def re_major_tenants : RE := labeled ["Tenant", "Anchor", "Major Tenant"] reLineGroup

def re_lease_terms : RE := labeled ["Lease Term", "Remaining Term"] reLineGroup

def re_tenant_quality : RE := labeled ["Tenant Quality", "Credit Quality"] reLineGroup

def re_market : RE := labeled ["Market", "Market Analysis", "MSA"] reLineGroup

def re_submarket : RE := labeled ["Submarket", "Sub-market"] reLineGroup

def re_comparable_properties : RE :=
  labeled ["Comparable", "Comp", "Similar Properties"] reLineGroup

def re_market_trends : RE := labeled ["Market Trend", "Trend"] reLineGroup

def re_identified_risks : RE := labeled ["Risk", "Risk Factor", "Concern"] reLineGroup

def re_mitigation_strategies : RE :=
  labeled ["Mitigation", "Mitigation Strategy"] reLineGroup

/-! ### The regex extraction strategy (`DataExtractor._extract_metrics_regex`
and its per-group helpers).  The `*_with_source` helpers in the source are
aliases of the `*_with_citation` ones. -/

/-- `_extract_property_details_with_citations`. -/
def extract_property_details_with_citations (text : List Char) : J :=
  jobj [
    ("property_address", find_pattern_with_citation text re_property_address 0),
    ("property_type", find_pattern_with_citation text re_property_type 0),
    ("square_footage", find_pattern_with_citation text re_square_footage 0),
    ("acres", find_pattern_with_citation text re_acres 0),
    ("land_square_feet", find_pattern_with_citation text re_land_square_feet 0),
    ("gross_building_area", find_pattern_with_citation text re_gross_building_area 0),
    ("net_rentable_area", find_pattern_with_citation text re_net_rentable_area 0),
    ("year_built", find_pattern_with_citation text re_year_built 0),
    ("units", find_pattern_with_citation text re_units 0),
    ("occupancy_rate", find_pattern_with_citation text re_occupancy_rate 0)]

/-- `_extract_financial_metrics_with_citations`. -/
def extract_financial_metrics_with_citations (text : List Char) : J :=
  jobj [
    ("noi_annual", find_pattern_with_citation text re_noi_annual 0),
    ("stabilized_noi", find_pattern_with_citation text re_stabilized_noi 0),
    ("cap_rate", find_pattern_with_citation text re_cap_rate 0),
    ("purchase_price", find_pattern_with_citation text re_purchase_price 0),
    ("appraised_value", find_pattern_with_citation text re_appraised_value 0),
    ("annual_gross_income", find_pattern_with_citation text re_annual_gross_income 0),
    ("operating_expenses", find_pattern_with_citation text re_operating_expenses 0),
    ("debt_service", find_pattern_with_citation text re_debt_service 0),
    ("dscr", find_pattern_with_citation text re_dscr 0),
    ("irr", find_pattern_with_citation text re_irr 0),
    ("project_cost", find_pattern_with_citation text re_project_cost 0),
    ("expected_exit_valuation", find_pattern_with_citation text re_expected_exit_valuation 0),
    ("expected_rents", jarr [])]

/-- `_extract_loan_details_with_citations`. -/
def extract_loan_details_with_citations (text : List Char) : J :=
  jobj [
    ("loan_amount", find_pattern_with_citation text re_loan_amount 0),
    ("interest_rate", find_pattern_with_citation text re_interest_rate 0),
    ("loan_term_years", find_pattern_with_citation text re_loan_term_years 0),
    ("loan_type", find_pattern_with_citation text re_loan_type 0),
    ("lender", find_pattern_with_citation text re_lender 0),
    ("maturity_date", find_pattern_with_citation text re_maturity_date 0),
    ("ltv", find_pattern_with_citation text re_ltv 0)]

/-- `_extract_market_analysis_with_citations`. -/
def extract_market_analysis_with_citations (text : List Char) : J :=
  jobj [
    ("market", find_pattern_with_citation text re_market 0),
    ("submarket", find_pattern_with_citation text re_submarket 0),
    ("comparable_properties", jarr (find_multiple_patterns_with_citations text
      re_comparable_properties "(?:Comparable|Comp|Similar Properties):\\s*([^\\n]+)" 5)),
    ("market_trends", jarr (find_multiple_patterns_with_citations text
      re_market_trends "(?:Market Trend|Trend):\\s*([^\\n]+)" 5))]

/-- The `extraction_metadata` literal of both `_extract_metrics_regex` and
`OpenAIExtractor._get_empty_response` (the two literals are identical in
the source). -/
def emptyMetadata : J :=
  jobj [
    ("confidence_score", J.n 0),
    ("missing_fields", jarr []),
    ("fields_with_citations", J.n 0),
    ("fields_without_citations", J.n 0),
    ("citation_coverage_percent", J.n 0)]

/-- `DataExtractor._extract_metrics_regex`: the full regex-strategy record
(tenant_information and risk_assessment are built inline in the source). -/
def extract_metrics_regex (text : List Char) : J :=
  jobj [
    ("property_details", extract_property_details_with_citations text),
    ("financial_metrics", extract_financial_metrics_with_citations text),
    ("loan_details", extract_loan_details_with_citations text),
    ("tenant_information", jobj [
      ("major_tenants", jarr (find_multiple_patterns_with_citations text
        re_major_tenants "(?:Tenant|Anchor|Major Tenant):\\s*([^\\n]+)" 5)),
      ("lease_terms", find_pattern_with_citation text re_lease_terms 0),
      ("tenant_quality", find_pattern_with_citation text re_tenant_quality 0)]),
    ("market_analysis", extract_market_analysis_with_citations text),
    ("risk_assessment", jobj [
      ("identified_risks", jarr (find_multiple_patterns_with_citations text
        re_identified_risks "(?:Risk|Risk Factor|Concern):\\s*([^\\n]+)" 5)),
      ("mitigation_strategies", jarr (find_multiple_patterns_with_citations text
        re_mitigation_strategies "(?:Mitigation|Mitigation Strategy):\\s*([^\\n]+)" 5))]),
    ("extraction_metadata", emptyMetadata)]

/-! ### The model extraction strategy (`OpenAIExtractor`).  The chat call
is opaque (out of core scope) and is passed in as
`modelCall : List Char → Except String J`: it receives the prepared text
and either returns the parsed schema-shaped JSON or fails. -/

/-- The six all-null groups of `OpenAIExtractor._get_empty_response`. -/
def empty_property_details : J :=
  jobj [
    ("property_address", nullField), ("property_type", nullField),
    ("square_footage", nullField), ("acres", nullField),
    ("land_square_feet", nullField), ("gross_building_area", nullField),
    ("net_rentable_area", nullField), ("year_built", nullField),
    ("units", nullField), ("occupancy_rate", nullField)]

def empty_financial_metrics : J :=
  jobj [
    ("noi_annual", nullField), ("stabilized_noi", nullField),
    ("cap_rate", nullField), ("purchase_price", nullField),
    ("appraised_value", nullField), ("annual_gross_income", nullField),
    ("operating_expenses", nullField), ("debt_service", nullField),
    ("dscr", nullField), ("irr", nullField), ("project_cost", nullField),
    ("expected_exit_valuation", nullField), ("expected_rents", jarr [])]

def empty_loan_details : J :=
  jobj [
    ("loan_amount", nullField), ("interest_rate", nullField),
    ("loan_term_years", nullField), ("loan_type", nullField),
    ("lender", nullField), ("maturity_date", nullField), ("ltv", nullField)]

def empty_tenant_information : J :=
  jobj [
    ("major_tenants", jarr []), ("lease_terms", nullField),
    ("tenant_quality", nullField)]

def empty_market_analysis : J :=
  jobj [
    ("market", nullField), ("submarket", nullField),
    ("comparable_properties", jarr []), ("market_trends", jarr [])]

def empty_risk_assessment : J :=
  jobj [
    ("identified_risks", jarr []), ("mitigation_strategies", jarr [])]

/-- `OpenAIExtractor._get_empty_response`: the canonical all-null record. -/
def get_empty_response : J :=
  jobj [
    ("property_details", empty_property_details),
    ("financial_metrics", empty_financial_metrics),
    ("loan_details", empty_loan_details),
    ("tenant_information", empty_tenant_information),
    ("market_analysis", empty_market_analysis),
    ("risk_assessment", empty_risk_assessment),
    ("extraction_metadata", emptyMetadata)]

/-- The six schema groups alone (no `extraction_metadata`), for counting
the schema's declared leaf slots. -/
def emptySixGroups : J :=
  jobj [
    ("property_details", empty_property_details),
    ("financial_metrics", empty_financial_metrics),
    ("loan_details", empty_loan_details),
    ("tenant_information", empty_tenant_information),
    ("market_analysis", empty_market_analysis),
    ("risk_assessment", empty_risk_assessment)]

/-- The truncation marker inserted by `_prepare_text`. -/
def truncationMarker : List Char := "\n...[document content truncated]...\n".data

/-- `OpenAIExtractor._prepare_text` with its default `max_chars = 16000`
(the only way it is called): keep the first and last `16000 // 2 = 8000`
characters of an over-long text around the marker. -/
def prepare_text (text : List Char) : List Char :=
  if 16000 < text.length then
    text.take 8000 ++ truncationMarker ++ text.drop (text.length - 8000)
  else text

/-- `OpenAIExtractor.extract_structured_data`: short-circuit to the empty
response on empty/whitespace-only input (`not text or len(text.strip())
== 0`) without touching the model; otherwise delegate the prepared text.
API/JSON failures surface as `Except.error`. -/
def extract_structured_data (modelCall : List Char → Except String J)
    (text : List Char) : Except String J :=
  if text.isEmpty || (strip text).isEmpty then Except.ok get_empty_response
  else modelCall (prepare_text text)

/-- `OpenAIExtractor._count_total_fields`: the hardcoded constant. -/
def count_total_fields : Nat := 38

/-- Python `for item in value: if item: count += 1` counting. -/
def countTruthyItems : JItems → Nat
  | JItems.nil => 0
  | JItems.cons h t => (if truthy h then 1 else 0) + countTruthyItems t

mutual
/-- `OpenAIExtractor._count_filled_fields`. -/
def count_filled_fields : J → Nat
  | J.obj fs => countFieldsList fs
  | J.arr items => countTruthyItems items
  | _ => 0

/-- Inner loop of `OpenAIExtractor._count_filled_fields`: walk a dict's
items, skipping `source_text`/`unit` keys and `None` values; a dict with a
`value` key counts one when that value is non-null, any other dict is
recursed into, a list counts its truthy items, and any other non-null
scalar counts one. -/
def countFieldsList : JFields → Nat
  | JFields.nil => 0
  | JFields.cons k v t =>
    (if k = "source_text" ∨ k = "unit" then 0
     else
       match v with
       | J.null => 0
       | J.obj fs' =>
         match lookupField fs' "value" with
         | some J.null => 0
         | some _ => 1
         | none => countFieldsList fs'
       | J.arr items => countTruthyItems items
       | _ => 1)
    + countFieldsList t
end

/-- The non-`source_text`/`unit` non-null any-truthy test of
`_count_fields_with_citations` (`any(v for k, v in item.items() ...)`). -/
def anyFieldNonMetaTruthy : JFields → Bool
  | JFields.nil => false
  | JFields.cons k v t =>
    (!(k == "source_text" || k == "unit") && !(isNullJ v) && truthy v)
    || anyFieldNonMetaTruthy t

/-- The list-entry citation test of `_count_fields_with_citations`: a dict
entry with a non-null `source_text` and some truthy non-`source_text`/
non-`unit` value. -/
def isCitedEntry : J → Bool
  | J.obj fs =>
    hasKey fs "source_text"
    && !(jIsNull (lookupField fs "source_text"))
    && anyFieldNonMetaTruthy fs
  | _ => false

/-- Count of cited entries in a list. -/
def countCitedItems : JItems → Nat
  | JItems.nil => 0
  | JItems.cons h t => (if isCitedEntry h then 1 else 0) + countCitedItems t

mutual
/-- `OpenAIExtractor._count_fields_with_citations`. -/
def count_fields_with_citations : J → Nat
  | J.obj fs => countCitationsList fs
  | _ => 0

/-- Inner loop of `OpenAIExtractor._count_fields_with_citations`: a dict
with both `value` and `source_text` keys counts one when both are
non-null, any other dict is recursed into, and a list counts its cited
entries; scalars are ignored. -/
def countCitationsList : JFields → Nat
  | JFields.nil => 0
  | JFields.cons _ v t =>
    (match v with
     | J.obj fs' =>
       if hasKey fs' "value" && hasKey fs' "source_text" then
         if !(jIsNull (lookupField fs' "value"))
             && !(jIsNull (lookupField fs' "source_text")) then 1 else 0
       else countCitationsList fs'
     | J.arr items => countCitedItems items
     | _ => 0)
    + countCitationsList t
end

/-- Inner loop of `OpenAIExtractor._identify_missing_fields`: record the
dotted path of every `None` scalar and every empty list; dict values are
recursed into unless their key is `source_text`/`unit` (note the source
applies that skip only to dict-valued keys). -/
def check_fields (pre : String) : JFields → List String
  | JFields.nil => []
  | JFields.cons k v t =>
    (let path := if pre = "" then k else pre ++ "." ++ k
     match v with
     | J.obj fs => if k = "source_text" ∨ k = "unit" then [] else check_fields path fs
     | J.arr items => if items.isEmpty then [path] else []
     | J.null => [path]
     | _ => [])
    ++ check_fields pre t

/-- `OpenAIExtractor._identify_missing_fields`. -/
def identify_missing_fields : J → List String
  | J.obj fs => check_fields "" fs
  | _ => []

/-- Python `round(x, 2)` on exact rationals: scale by 100 and round half
to even. -/
def pyRound (x : ℚ) : ℤ :=
  let f := ⌊x⌋
  let r := x - f
  if r < 1 / 2 then f
  else if 1 / 2 < r then f + 1
  else if f % 2 = 0 then f else f + 1

/-- Two-decimal rounding, `round(x, 2)`. -/
def round2 (x : ℚ) : ℚ := (pyRound (x * 100) : ℚ) / 100

/-- `result['extraction_metadata']` (defaulting to an empty dict if the
key is somehow absent; the schema always supplies it). -/
def metaOf (j : J) : J := (getField j "extraction_metadata").getD (jobj [])

/-- `result['extraction_metadata'][k] = v`. -/
def setMeta (j : J) (k : String) (v : J) : J :=
  setField j "extraction_metadata" (setField (metaOf j) k v)

/-- The scoring block of `OpenAIExtractor.extract_with_confidence`: counts
are taken on the incoming record, then the five metadata entries are
assigned in source order (`_identify_missing_fields` runs after the
confidence assignment, on the partially updated record). -/
def applyConfidence (result : J) : J :=
  let total : ℚ := (count_total_fields : ℚ)
  let filled : ℚ := (count_filled_fields result : ℚ)
  let cited : ℚ := (count_fields_with_citations result : ℚ)
  let confidence : ℚ := if 0 < total then filled / total * 100 else 0
  let coverage : ℚ := if 0 < filled then cited / filled * 100 else 0
  let r1 := setMeta result "confidence_score" (J.n (round2 confidence))
  let r2 := setMeta r1 "missing_fields" (jarr ((identify_missing_fields r1).map J.s))
  let r3 := setMeta r2 "fields_with_citations" (J.n cited)
  let r4 := setMeta r3 "fields_without_citations" (J.n (filled - cited))
  setMeta r4 "citation_coverage_percent" (J.n (round2 coverage))

/-- `OpenAIExtractor.extract_with_confidence`. -/
def extract_with_confidence (modelCall : List Char → Except String J)
    (text : List Char) : Except String J :=
  (extract_structured_data modelCall text).map applyConfidence

/-- `result['extraction_metadata'][k]`, for observing scored records. -/
def getMetaField (j : J) (k : String) : Option J :=
  match getField j "extraction_metadata" with
  | some m => getField m k
  | none => none

/-! ### The coordinator (`DataExtractor.extract_all`).  Parsing of the
uploaded file is out of core scope; the coordinator's strategy selection
and fallback policy over the extraction text are embedded.  The three
booleans are `self.use_openai`, `Config.validate_openai_config()` and
`Config.ENABLE_FALLBACK`. -/

/-- `DataExtractor.extract_all`, reduced to its strategy-selection core:
returns the extracted metrics together with the `extraction_method`
label. -/
def extract_all (use_openai openai_configured enable_fallback : Bool)
    (modelCall : List Char → Except String J) (text : List Char) :
    Except String (J × String) :=
  if use_openai && openai_configured then
    match extract_with_confidence modelCall text with
    | Except.ok r => Except.ok (r, "openai")
    | Except.error e =>
      if enable_fallback then Except.ok (extract_metrics_regex text, "regex_fallback")
      else Except.error ("OpenAI extraction failed and fallback disabled: " ++ e)
  else Except.ok (extract_metrics_regex text, "regex")

/-! ### Claim-side definitions (refinement comparisons)

These follow the wording of the specification's claims, to be compared
against the source-derived definitions above. -/

mutual
/-- The claim's slot-counting convention for the schema: every scalar
FieldValue leaf (an object with a `value` key) weighs `leafW`, every list
field weighs `listW`; other objects are descended into. -/
def slotCount (leafW listW : Nat) : J → Nat
  | J.obj fs => if hasKey fs "value" then leafW else slotCountList leafW listW fs
  | J.arr _ => listW
  | _ => 0

/-- Inner loop of `slotCount`. -/
def slotCountList (leafW listW : Nat) : JFields → Nat
  | JFields.nil => 0
  | JFields.cons _ v t => slotCount leafW listW v + slotCountList leafW listW t
end

mutual
/-- The claim's notion of a filled field: a FieldValue node (object with a
`value` key) whose value is non-null, or a non-empty (truthy) list
entry. -/
def specFilledCount : J → Nat
  | J.obj fs =>
    if hasKey fs "value" then (if jIsNull (lookupField fs "value") then 0 else 1)
    else specFilledList fs
  | J.arr items => countTruthyItems items
  | _ => 0

/-- Inner loop of `specFilledCount`. -/
def specFilledList : JFields → Nat
  | JFields.nil => 0
  | JFields.cons _ v t => specFilledCount v + specFilledList t
end

/-- The claim's filled-field count of an extraction record: filled fields
of the six schema groups. -/
def specFilledRecord (j : J) : Nat :=
  (["property_details", "financial_metrics", "loan_details",
    "tenant_information", "market_analysis",
    "risk_assessment"].map (fun g => specFilledCount ((getField j g).getD J.null))).sum

/-! ### Observations used in theorem statements -/

/-- The string items of a JSON array. -/
def stringsOfItems : JItems → List String
  | JItems.nil => []
  | JItems.cons (J.s v) t => v :: stringsOfItems t
  | JItems.cons _ t => stringsOfItems t

/-- The `missing_fields` metadata entry of a record, as a string list. -/
def missingOf (j : J) : List String :=
  match getMetaField j "missing_fields" with
  | some (J.arr items) => stringsOfItems items
  | _ => []

/-- One loop iteration of `_find_multiple_patterns_with_citations` as an
optional entry (the functional reading of `collectEntries`). -/
def mkEntry (text : List Char) (key : String) (m : RMatch) : Option J :=
  match m.grp with
  | some g =>
    if (strip g).isEmpty then none
    else
      some (jobj [(key, J.s (String.mk (strip g))),
                  ("source_text", J.s (String.mk (source_window text m.ms m.me)))])
  | none => none

/-- A list entry carrying both a non-empty label value and a string
citation (the C9 invariant for list entries). -/
def entryCited (key : String) (entry : J) : Bool :=
  match getField entry key, getField entry "source_text" with
  | some (J.s v), some (J.s _) => !(v == "")
  | _, _ => false

/-! ### Lemmas: dict get/set algebra -/

theorem lookup_setInList_same : ∀ (fs : JFields) (k : String) (v : J),
    lookupField (setInList fs k v) k = some v
  | JFields.nil, k, v => by simp [setInList, lookupField]
  | JFields.cons k' v' t, k, v => by
    by_cases h : k' = k
    · simp [setInList, h, lookupField]
    · simp [setInList, h, lookupField, lookup_setInList_same t k v]

theorem lookup_setInList_ne : ∀ (fs : JFields) (k k' : String) (v : J),
    k ≠ k' → lookupField (setInList fs k v) k' = lookupField fs k'
  | JFields.nil, k, k', v, h => by simp [setInList, lookupField, h]
  | JFields.cons a b t, k, k', v, h => by
    by_cases ha : a = k
    · subst ha
      simp [setInList, lookupField, h]
    · simp [setInList, ha, lookupField, lookup_setInList_ne t k k' v h]

theorem getField_setField_same (j : J) (k : String) (v : J) :
    getField (setField j k v) k = some v := by
  cases j <;>
    simp [setField, getField, jobj, fieldsOf, lookup_setInList_same, lookupField]

theorem getField_setField_ne (j : J) (k k' : String) (v : J) (h : k ≠ k') :
    getField (setField j k v) k' = getField j k' := by
  cases j <;>
    simp [setField, getField, jobj, fieldsOf, lookup_setInList_ne _ _ _ _ h,
      lookupField, h]

theorem getMeta_setMeta_same (j : J) (k : String) (v : J) :
    getMetaField (setMeta j k v) k = some v := by
  unfold getMetaField setMeta
  rw [getField_setField_same]
  exact getField_setField_same _ _ _

theorem getMeta_setMeta_ne (j : J) (k k' : String) (v : J) (h : k ≠ k') :
    getMetaField (setMeta j k v) k' = getMetaField j k' := by
  unfold getMetaField setMeta metaOf
  rw [getField_setField_same]
  show getField (setField ((getField j "extraction_metadata").getD (jobj [])) k v) k' = _
  rw [getField_setField_ne _ _ _ _ h]
  cases hm : getField j "extraction_metadata" with
  | some m => simp [hm]
  | none => simp [hm, getField, jobj, fieldsOf, lookupField]

theorem getField_setMeta_ne (j : J) (g k : String) (v : J)
    (h : g ≠ "extraction_metadata") :
    getField (setMeta j k v) g = getField j g := by
  unfold setMeta
  exact getField_setField_ne _ _ _ _ (fun he => h he.symm)

/-! ### Lemmas: the metadata entries written by `applyConfidence` -/

theorem applyConfidence_confidence (j : J) :
    getMetaField (applyConfidence j) "confidence_score"
      = some (J.n (round2 ((count_filled_fields j : ℚ) / (count_total_fields : ℚ) * 100))) := by
  unfold applyConfidence
  rw [getMeta_setMeta_ne _ _ _ _ (by decide), getMeta_setMeta_ne _ _ _ _ (by decide),
    getMeta_setMeta_ne _ _ _ _ (by decide), getMeta_setMeta_ne _ _ _ _ (by decide),
    getMeta_setMeta_same]
  have hpos : (0 : ℚ) < (count_total_fields : ℚ) := by
    norm_num [count_total_fields]
  rw [if_pos hpos]

theorem applyConfidence_cited (j : J) :
    getMetaField (applyConfidence j) "fields_with_citations"
      = some (J.n (count_fields_with_citations j : ℚ)) := by
  unfold applyConfidence
  rw [getMeta_setMeta_ne _ _ _ _ (by decide), getMeta_setMeta_ne _ _ _ _ (by decide),
    getMeta_setMeta_same]

theorem applyConfidence_uncited (j : J) :
    getMetaField (applyConfidence j) "fields_without_citations"
      = some (J.n ((count_filled_fields j : ℚ) - (count_fields_with_citations j : ℚ))) := by
  unfold applyConfidence
  rw [getMeta_setMeta_ne _ _ _ _ (by decide), getMeta_setMeta_same]

theorem applyConfidence_coverage (j : J) :
    getMetaField (applyConfidence j) "citation_coverage_percent"
      = some (J.n (round2 (if 0 < (count_filled_fields j : ℚ) then
          (count_fields_with_citations j : ℚ) / (count_filled_fields j : ℚ) * 100
        else 0))) := by
  unfold applyConfidence
  exact getMeta_setMeta_same _ _ _

theorem getField_applyConfidence_ne (j : J) (g : String)
    (h : g ≠ "extraction_metadata") :
    getField (applyConfidence j) g = getField j g := by
  unfold applyConfidence
  rw [getField_setMeta_ne _ _ _ _ h, getField_setMeta_ne _ _ _ _ h,
    getField_setMeta_ne _ _ _ _ h, getField_setMeta_ne _ _ _ _ h,
    getField_setMeta_ne _ _ _ _ h]

/-! ### Lemmas: stripping and citation windows -/

theorem length_strip_le (l : List Char) : (strip l).length ≤ l.length := by
  unfold strip rstrip lstrip
  simp only [List.length_reverse]
  calc (List.dropWhile isSpace (List.dropWhile isSpace l).reverse).length
      ≤ (List.dropWhile isSpace l).reverse.length := (List.dropWhile_sublist _).length_le
    _ = (List.dropWhile isSpace l).length := by simp
    _ ≤ l.length := (List.dropWhile_sublist _).length_le

theorem lstrip_mono {m l : List Char} (h : m <:+: l) : lstrip m <:+: lstrip l := by
  obtain ⟨x, y, rfl⟩ := h
  unfold lstrip
  rw [List.append_assoc, List.dropWhile_append]
  split
  · rw [List.dropWhile_append]
    split
    · rename_i hme
      rw [List.isEmpty_iff.mp hme]
      exact List.nil_infix
    · exact (List.prefix_append _ _).isInfix
  · exact ((List.dropWhile_suffix _).isInfix).trans
      ⟨x.dropWhile isSpace, y, List.append_assoc _ _ _⟩

theorem rstrip_mono {m l : List Char} (h : m <:+: l) : rstrip m <:+: rstrip l := by
  unfold rstrip
  exact List.reverse_infix.mpr (lstrip_mono (List.reverse_infix.mpr h))

theorem strip_mono {m l : List Char} (h : m <:+: l) : strip m <:+: strip l :=
  rstrip_mono (lstrip_mono h)

theorem slice_infix_slice (text : List Char) (ms me a b : Nat)
    (h1 : a ≤ ms) (h2 : me ≤ b) :
    sliceBetween text ms me <:+: sliceBetween text a b := by
  unfold sliceBetween
  have h3 : text.take me = (text.take b).take me := by
    rw [List.take_take, Nat.min_eq_left h2]
  rw [h3, List.drop_take]
  refine (List.take_prefix _ _).isInfix.trans ?_
  have h4 : (text.take b).drop ms = ((text.take b).drop a).drop (ms - a) := by
    rw [List.drop_drop, Nat.add_sub_cancel' h1]
  rw [h4]
  exact (List.drop_suffix _ _).isInfix

/-! ### Lemmas: the multiple-pattern helper loop -/

theorem string_mk_ne_empty {l : List Char} (h : l.isEmpty = false) :
    String.mk l ≠ "" := by
  cases l with
  | nil => simp [List.isEmpty] at h
  | cons c t =>
    intro hc
    have hd := congrArg String.data hc
    simp at hd

theorem collectEntries_eq_filterMap (text : List Char) (key : String) :
    ∀ l : List RMatch, collectEntries text key l = l.filterMap (mkEntry text key)
  | [] => rfl
  | m :: ms => by
    have ih := collectEntries_eq_filterMap text key ms
    cases hg : m.grp with
    | none => simp [collectEntries, mkEntry, hg, List.filterMap_cons, ih]
    | some g =>
      by_cases he : (strip g).isEmpty
      · simp [collectEntries, mkEntry, hg, he, List.filterMap_cons, ih]
      · simp [collectEntries, mkEntry, hg, he, List.filterMap_cons, ih]

theorem collectEntries_all_cited (text : List Char) (key : String) :
    ∀ l : List RMatch, (collectEntries text key l).all (entryCited key) = true
  | [] => rfl
  | m :: ms => by
    have ih := collectEntries_all_cited text key ms
    cases hg : m.grp with
    | none => simpa [collectEntries, hg] using ih
    | some g =>
      by_cases he : (strip g).isEmpty
      · simpa [collectEntries, hg, he] using ih
      · have hne : (String.mk (strip g) == "") = false := by
          rw [beq_eq_false_iff_ne]
          exact string_mk_ne_empty (by simpa using he)
        have hcol : collectEntries text key (m :: ms)
            = jobj [(key, J.s (String.mk (strip g))),
                ("source_text", J.s (String.mk (source_window text m.ms m.me)))]
              :: collectEntries text key ms := by
          simp [collectEntries, hg, he]
        rw [hcol, List.all_cons, ih, Bool.and_true]
        by_cases hk : key = "source_text"
        · subst hk
          simp [entryCited, getField, jobj, fieldsOf, lookupField, hne]
        · simp [entryCited, getField, jobj, fieldsOf, lookupField, hk, hne]

/-! ### Lemma: shape of a single-pattern extraction result -/

theorem find_pattern_shape (text : List Char) (re : RE) (index : Nat) :
    find_pattern_with_citation text re index = nullField
    ∨ ∃ v w : List Char, v.isEmpty = false
      ∧ find_pattern_with_citation text re index
        = jobj [("value", J.s (String.mk v)), ("unit", J.null),
                ("source_text", J.s (String.mk w))] := by
  unfold find_pattern_with_citation
  split
  · rename_i m heq
    split
    · rename_i g hg
      by_cases he : (strip g).isEmpty
      · left
        simp [he]
      · right
        exact ⟨strip g, source_window text m.ms m.me, by simpa using he, by simp [he]⟩
    · exact Or.inl rfl
  · exact Or.inl rfl

set_option maxRecDepth 40000

/-! ### Claim theorems -/

/-- C8: text of length at most 16000 is passed to the model strategy
unchanged; longer text is reduced to its first 8000 characters, the
truncation marker, and its last 8000 characters. -/
theorem C8_prepare_text_truncation (text : List Char) :
    (text.length ≤ 16000 → prepare_text text = text)
    ∧ (16000 < text.length →
      prepare_text text
        = text.take 8000 ++ truncationMarker ++ text.drop (text.length - 8000)) := by
  constructor
  · intro h
    unfold prepare_text
    rw [if_neg (by omega)]
  · intro h
    unfold prepare_text
    rw [if_pos h]

/-- Witness for C8 at a 20-character and a 16001-character text. -/
theorem C8_prepare_text_truncation_witness :
    (List.replicate 20 'a').length ≤ 16000
    ∧ prepare_text (List.replicate 20 'a') = List.replicate 20 'a'
    ∧ 16000 < (List.replicate 16001 'b').length
    ∧ prepare_text (List.replicate 16001 'b')
      = List.replicate 8000 'b' ++ truncationMarker ++ List.replicate 8000 'b' := by
  have hl20 : (List.replicate 20 'a').length = 20 := by rw [List.length_replicate]
  have hl : (List.replicate 16001 'b').length = 16001 := by rw [List.length_replicate]
  have hmin : min 8000 16001 = 8000 := by norm_num
  have hsub : 16001 - (16001 - 8000) = 8000 := by norm_num
  refine ⟨by rw [hl20]; norm_num,
    (C8_prepare_text_truncation (List.replicate 20 'a')).1 (by rw [hl20]; norm_num),
    by rw [hl]; norm_num, ?_⟩
  rw [(C8_prepare_text_truncation (List.replicate 16001 'b')).2 (by rw [hl]; norm_num)]
  rw [hl, List.take_replicate, List.drop_replicate, hmin, hsub]

/-- C9: a FieldValue produced by the regex strategy's single-pattern
helper has a citation exactly when it has a value, and its value is never
the empty string; every entry produced by the multiple-pattern helper
carries a non-empty label value together with a string citation. -/
theorem C9_no_citation_without_value (text : List Char) (re : RE) (index : Nat)
    (pat : String) (limit : Nat) :
    (jIsNull (getField (find_pattern_with_citation text re index) "value")
      = jIsNull (getField (find_pattern_with_citation text re index) "source_text"))
    ∧ jStr (getField (find_pattern_with_citation text re index) "value") ≠ some ""
    ∧ (find_multiple_patterns_with_citations text re pat limit).all
        (entryCited (entryKey pat)) = true := by
  refine ⟨?_, ?_, collectEntries_all_cited text (entryKey pat) _⟩
  · rcases find_pattern_shape text re index with h | ⟨v, w, hv, h⟩
    · rw [h]
      decide
    · rw [h]
      simp [jobj, fieldsOf, getField, lookupField, jIsNull]
  · rcases find_pattern_shape text re index with h | ⟨v, w, hv, h⟩
    · rw [h]
      decide
    · rw [h]
      simp [jobj, fieldsOf, getField, lookupField, jStr]
      exact string_mk_ne_empty hv

/-- C10: the multiple-pattern helper is exactly a filterMap over the first
`limit` matches (entries come in document-match order; a match among the
first `limit` whose capture trims to empty is dropped without being
replaced by a later match; matches beyond the first `limit` are never
examined), and it returns at most `limit` entries. -/
theorem C10_list_helper_take_filterMap (text : List Char) (re : RE)
    (pat : String) (limit : Nat) :
    find_multiple_patterns_with_citations text re pat limit
      = ((finditer re text).take limit).filterMap (mkEntry text (entryKey pat))
    ∧ (find_multiple_patterns_with_citations text re pat limit).length ≤ limit := by
  have he := collectEntries_eq_filterMap text (entryKey pat) ((finditer re text).take limit)
  refine ⟨he, ?_⟩
  unfold find_multiple_patterns_with_citations
  rw [he]
  exact Nat.le_trans (List.length_filterMap_le _ _) (List.length_take_le _ _)

/-- C5: with the model strategy enabled and configured and its extraction
failing, the coordinator falls back to the regex record labelled
`regex_fallback` when fallback is enabled, and propagates the failure
when fallback is disabled. -/
theorem C5_fallback_policy (modelCall : List Char → Except String J)
    (text : List Char) (e : String)
    (h : extract_with_confidence modelCall text = Except.error e) :
    extract_all true true true modelCall text
      = Except.ok (extract_metrics_regex text, "regex_fallback")
    ∧ extract_all true true false modelCall text
      = Except.error ("OpenAI extraction failed and fallback disabled: " ++ e) := by
  constructor <;> simp [extract_all, h]

/-- Witness for C5: a model call that always fails, on the text "x". -/
theorem C5_fallback_policy_witness :
    extract_with_confidence (fun _ => Except.error "boom") ("x".data)
      = Except.error "boom"
    ∧ extract_all true true true (fun _ => Except.error "boom") ("x".data)
      = Except.ok (extract_metrics_regex ("x".data), "regex_fallback")
    ∧ extract_all true true false (fun _ => Except.error "boom") ("x".data)
      = Except.error "OpenAI extraction failed and fallback disabled: boom" := by
  refine ⟨rfl, ?_, ?_⟩
  · exact (C5_fallback_policy (fun _ => Except.error "boom") ("x".data) "boom" rfl).1
  · exact (C5_fallback_policy (fun _ => Except.error "boom") ("x".data) "boom" rfl).2

/-- C1 (counterexample): the hardcoded total of 38 fillable fields does
not equal the schema's leaf-slot count under the claim's convention — the
canonical all-null record declares 33 scalar FieldValue leaves and 6 list
fields across the six groups, 39 slots in all (not 34 and 5). -/
theorem C1_counterexample :
    count_total_fields ≠ slotCount 1 1 emptySixGroups
    ∧ slotCount 1 0 emptySixGroups = 33
    ∧ slotCount 0 1 emptySixGroups = 6 := by
  refine ⟨by decide, by decide, by decide⟩

/-- C1 (amended): the confidence score is `filled / 38 * 100` rounded to
two decimals, where 38 is the hardcoded `_count_total_fields` constant;
that constant does not match the schema, whose canonical all-null record
declares 39 leaf slots (33 scalar leaves plus 6 list fields). -/
theorem C1_amended_confidence_formula :
    (∀ j : J, jNum (getMetaField (applyConfidence j) "confidence_score")
      = some (round2 ((count_filled_fields j : ℚ) / (count_total_fields : ℚ) * 100)))
    ∧ count_total_fields = 38
    ∧ slotCount 1 1 emptySixGroups = 39 := by
  refine ⟨fun j => ?_, rfl, by decide⟩
  rw [applyConfidence_confidence j]
  simp [jNum]

/-- C2 (counterexample): on the record produced by the model strategy for
empty input, `fields_with_citations + fields_without_citations` is
`0 + 4 = 4` (the four numeric metadata entries are counted as filled),
while the record holds no filled FieldValue or list entry at all, so the
claimed equation fails. -/
theorem C2_counterexample :
    extract_with_confidence (fun _ => Except.error "unavailable") []
      = Except.ok (applyConfidence get_empty_response)
    ∧ jNum (getMetaField (applyConfidence get_empty_response) "fields_with_citations")
      = some 0
    ∧ jNum (getMetaField (applyConfidence get_empty_response) "fields_without_citations")
      = some 4
    ∧ specFilledRecord (applyConfidence get_empty_response) = 0
    ∧ (0 : ℚ) + 4 ≠ ((specFilledRecord (applyConfidence get_empty_response) : ℚ)) := by
  have hc : count_fields_with_citations get_empty_response = 0 := by decide
  have hf : count_filled_fields get_empty_response = 4 := by decide
  have hs : specFilledRecord (applyConfidence get_empty_response) = 0 := by decide
  refine ⟨rfl, ?_, ?_, hs, ?_⟩
  · rw [applyConfidence_cited, hc]
    simp [jNum]
  · rw [applyConfidence_uncited, hc, hf]
    simp [jNum]
  · rw [hs]
    norm_num

/-- C2 (amended): for model-strategy records the two citation counters sum
to the scorer's own filled-field count (`_count_filled_fields`, which also
counts non-null scalar metadata entries); regex-strategy records carry the
constant counters 0 and 0 regardless of their filled fields. -/
theorem C2_amended_citation_counters :
    (∀ j : J, ∃ cw fw : ℚ,
      jNum (getMetaField (applyConfidence j) "fields_with_citations") = some cw
      ∧ jNum (getMetaField (applyConfidence j) "fields_without_citations") = some fw
      ∧ cw + fw = (count_filled_fields j : ℚ))
    ∧ (∀ text : List Char,
      getMetaField (extract_metrics_regex text) "fields_with_citations" = some (J.n 0)
      ∧ getMetaField (extract_metrics_regex text) "fields_without_citations" = some (J.n 0)) := by
  constructor
  · intro j
    refine ⟨(count_fields_with_citations j : ℚ),
      (count_filled_fields j : ℚ) - (count_fields_with_citations j : ℚ), ?_, ?_, by ring⟩
    · rw [applyConfidence_cited]
      simp [jNum]
    · rw [applyConfidence_uncited]
      simp [jNum]
  · intro text
    exact ⟨rfl, rfl⟩

/-- C3 (counterexample): the missing-fields list of a scored record
reports the subkey paths individually — for the all-null record it
contains `property_details.property_address.unit` (ending in `.unit`) and
does not contain the bare path `property_details.property_address`. -/
theorem C3_counterexample :
    extract_with_confidence (fun _ => Except.error "unavailable") ("\t".data)
      = Except.ok (applyConfidence get_empty_response)
    ∧ "property_details.property_address.unit"
        ∈ missingOf (applyConfidence get_empty_response)
    ∧ "property_details.property_address"
        ∉ missingOf (applyConfidence get_empty_response) := by
  refine ⟨rfl, by decide, by decide⟩

/-- C3 (amended): for the canonical all-null record the scored
missing-fields list is exactly the 106 paths below — three entries
(`.value`, `.unit`, `.source_text`) per null scalar leaf, one per empty
list, plus `extraction_metadata.missing_fields` — in traversal order;
regex-strategy records always carry the constant `missing_fields = []`. -/
theorem C3_amended_missing_fields :
    missingOf (applyConfidence get_empty_response) = [
      "property_details.property_address.value", "property_details.property_address.unit",
      "property_details.property_address.source_text", "property_details.property_type.value",
      "property_details.property_type.unit", "property_details.property_type.source_text",
      "property_details.square_footage.value", "property_details.square_footage.unit",
      "property_details.square_footage.source_text", "property_details.acres.value",
      "property_details.acres.unit", "property_details.acres.source_text",
      "property_details.land_square_feet.value", "property_details.land_square_feet.unit",
      "property_details.land_square_feet.source_text", "property_details.gross_building_area.value",
      "property_details.gross_building_area.unit", "property_details.gross_building_area.source_text",
      "property_details.net_rentable_area.value", "property_details.net_rentable_area.unit",
      "property_details.net_rentable_area.source_text", "property_details.year_built.value",
      "property_details.year_built.unit", "property_details.year_built.source_text",
      "property_details.units.value", "property_details.units.unit",
      "property_details.units.source_text", "property_details.occupancy_rate.value",
      "property_details.occupancy_rate.unit", "property_details.occupancy_rate.source_text",
      "financial_metrics.noi_annual.value", "financial_metrics.noi_annual.unit",
      "financial_metrics.noi_annual.source_text", "financial_metrics.stabilized_noi.value",
      "financial_metrics.stabilized_noi.unit", "financial_metrics.stabilized_noi.source_text",
      "financial_metrics.cap_rate.value", "financial_metrics.cap_rate.unit",
      "financial_metrics.cap_rate.source_text", "financial_metrics.purchase_price.value",
      "financial_metrics.purchase_price.unit", "financial_metrics.purchase_price.source_text",
      "financial_metrics.appraised_value.value", "financial_metrics.appraised_value.unit",
      "financial_metrics.appraised_value.source_text", "financial_metrics.annual_gross_income.value",
      "financial_metrics.annual_gross_income.unit", "financial_metrics.annual_gross_income.source_text",
      "financial_metrics.operating_expenses.value", "financial_metrics.operating_expenses.unit",
      "financial_metrics.operating_expenses.source_text", "financial_metrics.debt_service.value",
      "financial_metrics.debt_service.unit", "financial_metrics.debt_service.source_text",
      "financial_metrics.dscr.value", "financial_metrics.dscr.unit",
      "financial_metrics.dscr.source_text", "financial_metrics.irr.value",
      "financial_metrics.irr.unit", "financial_metrics.irr.source_text",
      "financial_metrics.project_cost.value", "financial_metrics.project_cost.unit",
      "financial_metrics.project_cost.source_text", "financial_metrics.expected_exit_valuation.value",
      "financial_metrics.expected_exit_valuation.unit", "financial_metrics.expected_exit_valuation.source_text",
      "financial_metrics.expected_rents", "loan_details.loan_amount.value",
      "loan_details.loan_amount.unit", "loan_details.loan_amount.source_text",
      "loan_details.interest_rate.value", "loan_details.interest_rate.unit",
      "loan_details.interest_rate.source_text", "loan_details.loan_term_years.value",
      "loan_details.loan_term_years.unit", "loan_details.loan_term_years.source_text",
      "loan_details.loan_type.value", "loan_details.loan_type.unit",
      "loan_details.loan_type.source_text", "loan_details.lender.value",
      "loan_details.lender.unit", "loan_details.lender.source_text",
      "loan_details.maturity_date.value", "loan_details.maturity_date.unit",
      "loan_details.maturity_date.source_text", "loan_details.ltv.value",
      "loan_details.ltv.unit", "loan_details.ltv.source_text",
      "tenant_information.major_tenants", "tenant_information.lease_terms.value",
      "tenant_information.lease_terms.unit", "tenant_information.lease_terms.source_text",
      "tenant_information.tenant_quality.value", "tenant_information.tenant_quality.unit",
      "tenant_information.tenant_quality.source_text", "market_analysis.market.value",
      "market_analysis.market.unit", "market_analysis.market.source_text",
      "market_analysis.submarket.value", "market_analysis.submarket.unit",
      "market_analysis.submarket.source_text", "market_analysis.comparable_properties",
      "market_analysis.market_trends", "risk_assessment.identified_risks",
      "risk_assessment.mitigation_strategies", "extraction_metadata.missing_fields"]
    ∧ (∀ text : List Char,
      getMetaField (extract_metrics_regex text) "missing_fields" = some (jarr [])) := by
  refine ⟨by decide, fun text => rfl⟩

/-- C4: on the spec's example input the code's regex strategy extracts no
NOI value at all — the pattern requires a literal `NOI:`/`Net Operating
Income:` and cannot match `Net Operating Income (NOI):` — while the cap
rate is extracted as "6.5" with a citation containing its line. -/
theorem C4_regex_example_behavior :
    attrOf (extract_financial_metrics_with_citations
        ("Net Operating Income (NOI): $2,500,000\nCap Rate: 6.5%".data))
      "noi_annual" "value" = some J.null
    ∧ jStr (attrOf (extract_financial_metrics_with_citations
        ("Net Operating Income (NOI): $2,500,000\nCap Rate: 6.5%".data))
      "cap_rate" "value") = some "6.5"
    ∧ jStr (attrOf (extract_financial_metrics_with_citations
        ("Net Operating Income (NOI): $2,500,000\nCap Rate: 6.5%".data))
      "cap_rate" "source_text")
      = some "Net Operating Income (NOI): $2,500,000\nCap Rate: 6.5%"
    ∧ containsSub "Net Operating Income (NOI): $2,500,000\nCap Rate: 6.5%"
        "Cap Rate: 6.5%" = true := by
  refine ⟨rfl, rfl, rfl, by decide⟩

/-- C6 (counterexample): on `"Lease Term: 5 yr "` the single match spans
the whole text including its trailing space, but the trimmed citation
window no longer contains that matched substring, so the claim's
"window always still contains the matched substring" fails. -/
theorem C6_counterexample :
    find_pattern_with_citation ("Lease Term: 5 yr ".data) re_lease_terms 0
      = jobj [("value", J.s "5 yr"), ("unit", J.null),
              ("source_text", J.s "Lease Term: 5 yr")]
    ∧ finditer re_lease_terms ("Lease Term: 5 yr ".data)
      = [⟨0, 17, some ("5 yr ".data)⟩]
    ∧ containsSeq (source_window ("Lease Term: 5 yr ".data) 0 17)
        (sliceBetween ("Lease Term: 5 yr ".data) 0 17) = false := by
  refine ⟨rfl, rfl, by decide⟩

/-- C6 (amended): for any match `[ms, me)` within the text, the citation
window is computed from `max(0, ms - 50)` to `min(len(text), me + 50)`
without any out-of-bounds access, its length is at most the match length
plus 100, and it always still contains the whitespace-trimmed matched
substring (the untrimmed match can lose boundary whitespace to the
window's trim). -/
theorem C6_amended_citation_window (text : List Char) (ms me : Nat)
    (h1 : ms ≤ me) (h2 : me ≤ text.length) :
    (source_window text ms me).length ≤ (me - ms) + 100
    ∧ strip (sliceBetween text ms me) <:+: source_window text ms me := by
  constructor
  · have hlen := length_strip_le
      (sliceBetween text (ms - 50) (min text.length (me + 50)))
    have hslice : (sliceBetween text (ms - 50) (min text.length (me + 50))).length
        = min (min text.length (me + 50)) text.length - (ms - 50) := by
      unfold sliceBetween
      simp [List.length_drop, List.length_take]
    unfold source_window
    have hmin : min text.length (me + 50) ≤ me + 50 := Nat.min_le_right _ _
    have hmin2 : min (min text.length (me + 50)) text.length
        ≤ min text.length (me + 50) := Nat.min_le_left _ _
    omega
  · unfold source_window
    refine strip_mono (slice_infix_slice text ms me (ms - 50)
      (min text.length (me + 50)) (Nat.sub_le _ _) ?_)
    exact le_min h2 (by omega)

/-- Witness for C6 at the text "abc" with the match `[1, 2)`. -/
theorem C6_amended_citation_window_witness :
    (source_window ("abc".data) 1 2).length ≤ (2 - 1) + 100
    ∧ strip (sliceBetween ("abc".data) 1 2) <:+: source_window ("abc".data) 1 2 :=
  C6_amended_citation_window ("abc".data) 1 2 (by decide) (by decide)

/-- C7 (counterexample): on whitespace-only input the model strategy's
scored record has confidence score 10.53 (the four numeric metadata
entries count as filled: `round(4 / 38 * 100, 2)`), not 0 as claimed. -/
theorem C7_counterexample :
    extract_with_confidence (fun _ => Except.error "down") ("  ".data)
      = Except.ok (applyConfidence get_empty_response)
    ∧ jNum (getMetaField (applyConfidence get_empty_response) "confidence_score")
      = some (1053 / 100)
    ∧ (1053 / 100 : ℚ) ≠ 0 := by
  have hf : count_filled_fields get_empty_response = 4 := by decide
  refine ⟨rfl, ?_, by norm_num⟩
  rw [applyConfidence_confidence, hf]
  simp [jNum, count_total_fields]
  rw [round2, pyRound]
  norm_num

/-- C7 (amended): on empty/whitespace-only input the model strategy
returns the canonical all-null record (six groups unchanged) without
invoking the external service (the result is independent of the model
call), with citation coverage 0 — but with confidence score
`round(4 / 38 * 100, 2) = 10.53` rather than 0, because the scorer counts
the four numeric metadata entries as filled. -/
theorem C7_amended_blank_input (modelCall : List Char → Except String J)
    (text : List Char) (h : (strip text).isEmpty = true) :
    extract_structured_data modelCall text = Except.ok get_empty_response
    ∧ extract_with_confidence modelCall text
      = Except.ok (applyConfidence get_empty_response)
    ∧ (∀ g : String, g ≠ "extraction_metadata" →
        getField (applyConfidence get_empty_response) g
          = getField get_empty_response g)
    ∧ jNum (getMetaField (applyConfidence get_empty_response)
        "citation_coverage_percent") = some 0
    ∧ jNum (getMetaField (applyConfidence get_empty_response) "confidence_score")
      = some (1053 / 100) := by
  have hf : count_filled_fields get_empty_response = 4 := by decide
  have hc : count_fields_with_citations get_empty_response = 0 := by decide
  have h1 : extract_structured_data modelCall text = Except.ok get_empty_response := by
    unfold extract_structured_data
    simp [h]
  refine ⟨h1, ?_, ?_, ?_, ?_⟩
  · unfold extract_with_confidence
    rw [h1]
    rfl
  · intro g hg
    exact getField_applyConfidence_ne _ _ hg
  · rw [applyConfidence_coverage, hf, hc]
    simp [jNum]
    rw [round2, pyRound]
    norm_num
  · rw [applyConfidence_confidence, hf]
    simp [jNum, count_total_fields]
    rw [round2, pyRound]
    norm_num

/-- Witness for C7 on the single-space input with a failing model call. -/
theorem C7_amended_blank_input_witness :
    (strip (" ".data)).isEmpty = true
    ∧ extract_structured_data (fun _ => Except.error "down") (" ".data)
      = Except.ok get_empty_response
    ∧ getField (applyConfidence get_empty_response) "property_details"
      = getField get_empty_response "property_details" := by
  refine ⟨by decide,
    (C7_amended_blank_input (fun _ => Except.error "down") (" ".data) (by decide)).1,
    (C7_amended_blank_input (fun _ => Except.error "down") (" ".data)
      (by decide)).2.2.1 "property_details" (by decide)⟩

/-- Witness for C9 at a concrete text and the identified-risks pattern. -/
theorem C9_no_citation_without_value_witness :
    (jIsNull (getField (find_pattern_with_citation ("Risk: high vacancy".data)
        re_identified_risks 0) "value")
      = jIsNull (getField (find_pattern_with_citation ("Risk: high vacancy".data)
        re_identified_risks 0) "source_text"))
    ∧ jStr (getField (find_pattern_with_citation ("Risk: high vacancy".data)
        re_identified_risks 0) "value") ≠ some ""
    ∧ (find_multiple_patterns_with_citations ("Risk: high vacancy".data)
        re_identified_risks "(?:Risk|Risk Factor|Concern):\\s*([^\\n]+)" 5).all
        (entryCited (entryKey "(?:Risk|Risk Factor|Concern):\\s*([^\\n]+)")) = true :=
  C9_no_citation_without_value ("Risk: high vacancy".data) re_identified_risks 0
    "(?:Risk|Risk Factor|Concern):\\s*([^\\n]+)" 5
